import Mathlib

/-!
Verification of the Rentarium billing/payment ledger.

The definitions below are a shallow embedding of the two payment-storage
variants of the repository:

* `EnhancedPaymentStorage` (js/payment-storage-test.js, v3): utility rates,
  bill generation, rent-status and bill-status bookkeeping, payment creation
  and payment-status transitions.  Browser storage is modelled as an explicit
  `StorageState` record threaded through the operations; `Date`/id generation
  are passed in as explicit arguments (`freshId`, `nowDate`).
* `PaymentStorage` (js/full-payment-function.js, v2): lease-anchored payment
  periods and the duplicate-payment check.  JS `Date` values are modelled as
  explicit calendar dates (`SimpleDate`), with the `setMonth` day-overflow
  normalisation spelled out.

Money is modelled as `ℚ`; the JS idiom `parseFloat(x.toFixed(2))` is modelled
as exact rounding to two decimals (`round2`, round half up), per the money
semantics the code intends.
-/

/-- Rounding to two decimal places, half up: models `parseFloat(x.toFixed(2))`
on money values. -/
def round2 (q : ℚ) : ℚ := (⌊q * 100 + 1/2⌋ : ℚ) / 100

/-- A rational that is an exact two-decimal (centavo) amount. -/
def isCents (q : ℚ) : Prop := ∃ k : ℤ, q = (k : ℚ) / 100

/-- The utility rate table (singleton record in storage). -/
structure UtilityRates where
  electricity_rate : ℚ
  water_rate : ℚ
  deriving Repr, DecidableEq

/-- A partial rate update, as passed to `updateUtilityRates`: fields that are
absent keep their prior value (JS object spread). -/
structure RatesPatch where
  electricity_rate : Option ℚ
  water_rate : Option ℚ
  deriving Repr, DecidableEq

/-- A monthly utility bill (v3 `generateBill` record). -/
structure Bill where
  id : String
  tenantId : String
  month : String
  electricity_kwh : ℚ
  electricity_rate : ℚ
  electricity_amount : ℚ
  water_cubic : ℚ
  water_rate : ℚ
  water_amount : ℚ
  total_amount : ℚ
  paid_amount : ℚ
  status : String
  createdDate : String
  dueDate : String
  payments : List String
  deriving Repr, DecidableEq

/-- A per-(tenant, month) rent status record (v3 `getRentStatus` record). -/
structure RentStatus where
  id : String
  tenantId : String
  month : String
  required_amount : ℚ
  paid_amount : ℚ
  remaining_amount : ℚ
  status : String
  payments : List String
  createdDate : String
  dueDate : String
  deriving Repr, DecidableEq

/-- A payment record (v3).  Rent payments carry `billId = ""` (the JS object
simply has no `billId` property there). -/
structure Payment where
  id : String
  payment_type : String
  billId : String
  tenantId : String
  amount : ℚ
  month : String
  status : String
  paidDate : Option String
  adminNotes : String
  deriving Repr, DecidableEq

/-- The slice of a tenant record that `getCurrentTenantById` reads
(`username` and parsed `rentAmount`). -/
structure Tenant where
  username : String
  rentAmount : ℚ
  deriving Repr, DecidableEq

/-- The result of v3 `getCurrentTenant()` (session lookup), as consumed by
`createBillPayment`. -/
structure TenantInfo where
  id : String
  name : String
  unit : String
  monthlyRent : ℚ
  deriving Repr, DecidableEq

/-- The browser-storage state the v3 module reads and writes: the payment
list, the bill list, the rent-status list and the rate table. -/
structure StorageState where
  payments : List Payment
  bills : List Bill
  rentStatuses : List RentStatus
  rates : UtilityRates
  deriving Repr, DecidableEq

/-- `updateUtilityRates(newRates)`: merges the provided fields over the
current rates and stores the result. -/
def updateUtilityRates (st : StorageState) (newRates : RatesPatch) :
    UtilityRates × StorageState :=
  let updated : UtilityRates :=
    { electricity_rate := newRates.electricity_rate.getD st.rates.electricity_rate
      water_rate := newRates.water_rate.getD st.rates.water_rate }
  (updated, { st with rates := updated })

/-- `getBillDueDate(month)`: bills are due on the 15th of the month. -/
def getBillDueDate (month : String) : String :=
  let parts := month.splitOn "-"
  (parts.getD 0 "undefined") ++ "-" ++ (parts.getD 1 "undefined") ++ "-15"

/-- `getRentDueDate(month)`: rent is due on the 1st of the month. -/
def getRentDueDate (month : String) : String :=
  let parts := month.splitOn "-"
  (parts.getD 0 "undefined") ++ "-" ++ (parts.getD 1 "undefined") ++ "-01"

/-- `generateBill(tenantId, month, electricity_kwh, water_cubic)`: computes
the rounded per-resource amounts from the current rates, and either updates
the existing bill for `(tenantId, month)` in place (preserving `id`,
`paid_amount`, `status`, `createdDate`, `payments`) or appends a new bill.
`freshId` stands for `generateBillId()` and `nowDate` for
`new Date().toISOString()`. -/
def generateBill (st : StorageState) (tenantId month : String)
    (electricity_kwh water_cubic : ℚ) (freshId nowDate : String) :
    Bill × StorageState :=
  let bills := st.bills
  let rates := st.rates
  let existingBill := bills.find? fun b => decide (b.tenantId = tenantId ∧ b.month = month)
  let electricity_amount := round2 (electricity_kwh * rates.electricity_rate)
  let water_amount := round2 (water_cubic * rates.water_rate)
  let total_amount := round2 (electricity_amount + water_amount)
  let bill : Bill :=
    { id := match existingBill with | some eb => eb.id | none => freshId
      tenantId := tenantId
      month := month
      electricity_kwh := electricity_kwh
      electricity_rate := rates.electricity_rate
      electricity_amount := electricity_amount
      water_cubic := water_cubic
      water_rate := rates.water_rate
      water_amount := water_amount
      total_amount := total_amount
      paid_amount := match existingBill with | some eb => eb.paid_amount | none => 0
      status := match existingBill with | some eb => eb.status | none => "unpaid"
      createdDate := match existingBill with | some eb => eb.createdDate | none => nowDate
      dueDate := getBillDueDate month
      payments := match existingBill with | some eb => eb.payments | none => [] }
  match existingBill with
  | some eb =>
      (bill, { st with bills := bills.set (bills.findIdx fun b => decide (b.id = eb.id)) bill })
  | none => (bill, { st with bills := bills ++ [bill] })

/-- The record mutation at the heart of `updateRentStatus` (lines 220-232):
add the (possibly negative) amount, recompute `remaining_amount`, append the
payment id, and recompute the status. -/
def applyRentPayment (s : RentStatus) (paidAmount : ℚ) (paymentId : String) :
    RentStatus :=
  let paid := round2 (s.paid_amount + paidAmount)
  let rem := round2 (s.required_amount - paid)
  if rem ≤ 0 then
    { s with paid_amount := paid, remaining_amount := 0, status := "paid",
             payments := s.payments ++ [paymentId] }
  else if 0 < paid then
    { s with paid_amount := paid, remaining_amount := rem, status := "partial",
             payments := s.payments ++ [paymentId] }
  else
    { s with paid_amount := paid, remaining_amount := rem, status := "unpaid",
             payments := s.payments ++ [paymentId] }

/-- Folding a sequence of rent payments through `updateRentStatus`'s record
mutation. -/
def rentFold (s : RentStatus) (ps : List (ℚ × String)) : RentStatus :=
  ps.foldl (fun acc p => applyRentPayment acc p.1 p.2) s

/-- The record mutation at the heart of `updateBillStatus` (lines 250-261):
add the (possibly negative) amount, append the payment id, and recompute the
status, capping `paid_amount` at `total_amount` when it reaches the total. -/
def applyBillPayment (b : Bill) (paidAmount : ℚ) (paymentId : String) : Bill :=
  let paid := round2 (b.paid_amount + paidAmount)
  if b.total_amount ≤ paid then
    { b with paid_amount := b.total_amount, status := "paid",
             payments := b.payments ++ [paymentId] }
  else if 0 < paid then
    { b with paid_amount := paid, status := "partial",
             payments := b.payments ++ [paymentId] }
  else
    { b with paid_amount := paid, status := "unpaid",
             payments := b.payments ++ [paymentId] }

/-- The record `getRentStatus` creates when no status exists for
`(tenantId, month)`: required amount is the tenant's monthly rent (0 when the
tenant is unknown), nothing paid, status `unpaid`. -/
def freshRentStatus (tenants : List Tenant) (freshId nowDate tenantId month : String) :
    RentStatus :=
  let monthlyRent :=
    match tenants.find? fun t => decide (t.username = tenantId) with
    | some t => t.rentAmount
    | none => 0
  { id := freshId
    tenantId := tenantId
    month := month
    required_amount := monthlyRent
    paid_amount := 0
    remaining_amount := monthlyRent
    status := "unpaid"
    payments := []
    createdDate := nowDate
    dueDate := getRentDueDate month }

/-- `updateRentStatus(tenantId, month, paidAmount, paymentId)` on the stored
rent-status list.  When the status exists it is mutated and written back at
the index found by id.  When it does not exist, the JS code lets
`getRentStatus` persist a fresh record but then runs `findIndex` on the stale
array it read earlier: the index is `-1`, the `statuses[-1] = status`
assignment is dropped by `JSON.stringify`, and the stale array is written
back - so storage is left exactly as it was read. -/
def updateRentStatus (statuses : List RentStatus) (tenants : List Tenant)
    (freshId nowDate : String) (tenantId month : String) (paidAmount : ℚ)
    (paymentId : String) : RentStatus × List RentStatus :=
  match statuses.find? fun s => decide (s.tenantId = tenantId ∧ s.month = month) with
  | some st =>
      let st' := applyRentPayment st paidAmount paymentId
      (st', statuses.set (statuses.findIdx fun s => decide (s.id = st'.id)) st')
  | none =>
      let st' := applyRentPayment (freshRentStatus tenants freshId nowDate tenantId month)
        paidAmount paymentId
      (st', statuses)

/-- `updateBillStatus(billId, paidAmount, paymentId)` on the stored bill
list; returns `none` (and leaves the list untouched) when the bill id is
unknown. -/
def updateBillStatus (bills : List Bill) (billId : String) (paidAmount : ℚ)
    (paymentId : String) : Option Bill × List Bill :=
  match bills.find? fun b => decide (b.id = billId) with
  | none => (none, bills)
  | some b =>
      let b' := applyBillPayment b paidAmount paymentId
      (some b', bills.set (bills.findIdx fun x => decide (x.id = billId)) b')

/-- `updatePaymentStatus(paymentId, status, adminNotes)`: sets the payment's
status and admin notes; a transition to `verified`/`completed` stamps
`paidDate` and applies the amount to the target rent status or bill; a
transition to `rejected` from exactly `verified` reverses the amount;
any other transition touches only the payment record. -/
def updatePaymentStatus (st : StorageState) (tenants : List Tenant)
    (freshId nowDate : String) (paymentId newStatus adminNotes : String) :
    Option Payment × StorageState :=
  match st.payments.find? fun p => decide (p.id = paymentId) with
  | none => (none, st)
  | some p =>
      let oldStatus := p.status
      let p₁ : Payment := { p with status := newStatus, adminNotes := adminNotes }
      let step : Payment × StorageState :=
        if newStatus = "verified" ∨ newStatus = "completed" then
          let p₂ : Payment := { p₁ with paidDate := some nowDate }
          if p.payment_type = "rent" then
            let r := updateRentStatus st.rentStatuses tenants freshId nowDate
              p.tenantId p.month p.amount p.id
            (p₂, { st with rentStatuses := r.2 })
          else if p.payment_type = "bill" then
            let r := updateBillStatus st.bills p.billId p.amount p.id
            (p₂, { st with bills := r.2 })
          else (p₂, st)
        else if newStatus = "rejected" ∧ oldStatus = "verified" then
          if p.payment_type = "rent" then
            let r := updateRentStatus st.rentStatuses tenants freshId nowDate
              p.tenantId p.month (-p.amount) p.id
            (p₁, { st with rentStatuses := r.2 })
          else if p.payment_type = "bill" then
            let r := updateBillStatus st.bills p.billId (-p.amount) p.id
            (p₁, { st with bills := r.2 })
          else (p₁, st)
        else (p₁, st)
      let st₂ := step.2
      (some step.1,
        { st₂ with payments :=
            st.payments.set (st.payments.findIdx fun q => decide (q.id = paymentId)) step.1 })

/-- `createBillPayment(paymentData)`: requires a session tenant and an
existing bill; otherwise returns `null` without touching storage.  On
success it appends a new payment (status defaulting to `pending`), and if
the payment was created directly as `verified` it immediately applies the
amount to the bill. -/
def createBillPayment (st : StorageState) (sessionTenant : Option TenantInfo)
    (billId : String) (amount : ℚ) (statusOpt : Option String)
    (freshId nowDate : String) : Option Payment × StorageState :=
  match sessionTenant with
  | none => (none, st)
  | some tenant =>
      match st.bills.find? fun b => decide (b.id = billId) with
      | none => (none, st)
      | some bill =>
          let payment : Payment :=
            { id := freshId
              payment_type := "bill"
              billId := bill.id
              tenantId := tenant.id
              amount := amount
              month := bill.month
              status := statusOpt.getD "pending"
              paidDate := none
              adminNotes := "" }
          let payments' := st.payments ++ [payment]
          if payment.status = "verified" then
            let r := updateBillStatus st.bills bill.id payment.amount payment.id
            (some payment, { st with payments := payments', bills := r.2 })
          else
            (some payment, { st with payments := payments' })

/-- A calendar date as the JS code observes it through
`getFullYear()` / `getMonth()+1` / `getDate()`. -/
structure SimpleDate where
  year : ℤ
  month : ℤ
  day : ℤ
  deriving Repr, DecidableEq

/-- The slice of the v2 session tenant that the period logic reads. -/
structure TenantV2 where
  id : String
  leaseStart : Option SimpleDate
  deriving Repr, DecidableEq

/-- A v2 payment record (full-payment-function.js), with the fields
`canMakePayment` inspects. -/
structure PaymentV2 where
  id : String
  tenantId : String
  amount : ℚ
  status : String
  paymentType : String
  dueDate : String
  deriving Repr, DecidableEq

/-- The result shape of `canMakePayment`: `{ allowed, reason }` (the JS
success object carries no reason; modelled as `""`). -/
structure CanPayResult where
  allowed : Bool
  reason : String
  deriving Repr, DecidableEq

/-- Days in a month, JS 0-based month index, with the Gregorian leap rule
`Date` uses. -/
def daysInMonth (y m0 : ℤ) : ℤ :=
  if m0 = 1 then (if y % 4 = 0 ∧ (y % 100 ≠ 0 ∨ y % 400 = 0) then 29 else 28)
  else if m0 = 3 ∨ m0 = 5 ∨ m0 = 8 ∨ m0 = 10 then 30
  else 31

/-- Format a (year, 1-based month) pair as the template literal
`` `${year}-${String(month).padStart(2, '0')}` `` does. -/
def formatYM (y m : ℤ) : String :=
  toString y ++ "-" ++ (if m < 10 then "0" ++ toString m else toString m)

/-- `getCurrentPaymentPeriod()`: computes the whole calendar months elapsed
from lease start to today, then advances the lease-start date by that many
months via `Date.prototype.setMonth`.  `setMonth` keeps the day-of-month and
normalises: a day past the end of the target month spills into the following
month (for the day values `1..31` a calendar date can carry, one spill step
is all `Date` normalisation amounts to).  Returns `none` when there is no
session tenant or no lease-start date. -/
def getCurrentPaymentPeriod (tenant? : Option TenantV2) (today : SimpleDate) :
    Option String :=
  match tenant? with
  | none => none
  | some t =>
      match t.leaseStart with
      | none => none
      | some ls =>
          let monthsSinceStart := (today.year - ls.year) * 12 + (today.month - ls.month)
          let t0 := (ls.month - 1) + monthsSinceStart
          let y1 := ls.year + Int.fdiv t0 12
          let m1 := Int.emod t0 12
          if ls.day ≤ daysInMonth y1 m1 then some (formatYM y1 (m1 + 1))
          else if m1 = 11 then some (formatYM (y1 + 1) 1)
          else some (formatYM y1 (m1 + 2))

/-- JS `String.prototype.startsWith`, on the character lists of the
strings. -/
def strStartsWith (s pre : String) : Bool := pre.data.isPrefixOf s.data

/-- The filter `canMakePayment` applies to the payment list: this tenant's
verified/completed payments whose (truthy) due date starts with the current
period. -/
def periodKeep (tenantId currentPeriod : String) (p : PaymentV2) : Bool :=
  decide (p.tenantId = tenantId) &&
    (decide (p.status = "verified") || decide (p.status = "completed")) &&
    !decide (p.dueDate = "") && strStartsWith p.dueDate currentPeriod

/-- Whether the current period already holds a verified/completed payment of
the given type (`periodPayments.some(p => p.paymentType === ...)`). -/
def hasPaidType (payments : List PaymentV2) (tenantId currentPeriod ptype : String) :
    Bool :=
  (payments.filter (periodKeep tenantId currentPeriod)).any fun p =>
    decide (p.paymentType = ptype)

/-- `canMakePayment(paymentType)`: the duplicate-payment check.  Refuses a
`Monthly Rent` (resp. `Utility Bills`) payment when one is already
verified/completed in the current period, and refuses every payment type once
both are; otherwise allows. -/
def canMakePayment (payments : List PaymentV2) (tenant? : Option TenantV2)
    (today : SimpleDate) (paymentType : String) : CanPayResult :=
  match tenant? with
  | none => ⟨false, "Tenant not found"⟩
  | some tenant =>
      match getCurrentPaymentPeriod (some tenant) today with
      | none => ⟨false, "Payment period cannot be determined"⟩
      | some currentPeriod =>
          let rentPaid := hasPaidType payments tenant.id currentPeriod "Monthly Rent"
          let billsPaid := hasPaidType payments tenant.id currentPeriod "Utility Bills"
          if paymentType = "Monthly Rent" ∧ rentPaid = true then
            ⟨false, "Monthly rent for this period has already been paid and verified."⟩
          else if paymentType = "Utility Bills" ∧ billsPaid = true then
            ⟨false, "Utility bills for this period have already been paid and verified."⟩
          else if rentPaid = true ∧ billsPaid = true then
            ⟨false, "All payments for this period are complete. Please wait for the next billing cycle."⟩
          else ⟨true, ""⟩

/-- Modelled from the spec claim wording: the lease-start month advanced by
`k` whole months as pure (year, month) arithmetic, ignoring the day-of-month.
Used to compare the code's behaviour against the claimed formula. -/
def monthAdvance (y m k : ℤ) : ℤ × ℤ :=
  (y + Int.fdiv (m - 1 + k) 12, Int.emod (m - 1 + k) 12 + 1)

/-- The default rate table the module initialises storage with. -/
def sampleRates : UtilityRates := { electricity_rate := 23/2, water_rate := 25 }

/-- A partially paid bill used as a concrete test state. -/
def partialBill : Bill :=
  { id := "BILL-0001", tenantId := "alice", month := "2025-01"
    electricity_kwh := 4, electricity_rate := 23/2, electricity_amount := 46
    water_cubic := 108/50, water_rate := 25, water_amount := 54
    total_amount := 100, paid_amount := 50, status := "partial"
    createdDate := "D0", dueDate := "2025-01-15", payments := ["PAY-0000"] }

/-- A bill whose `total_amount` is 0, as `generateBill` produces for a month
with zero consumption. -/
def zeroBill : Bill :=
  { id := "BILL-0002", tenantId := "bob", month := "2025-02"
    electricity_kwh := 0, electricity_rate := 23/2, electricity_amount := 0
    water_cubic := 0, water_rate := 25, water_amount := 0
    total_amount := 0, paid_amount := 0, status := "unpaid"
    createdDate := "D0", dueDate := "2025-02-15", payments := [] }

/-- A pending bill payment whose amount overshoots what `partialBill` still
owes. -/
def billPaymentP : Payment :=
  { id := "PAY-0001", payment_type := "bill", billId := "BILL-0001"
    tenantId := "alice", amount := 80, month := "2025-01"
    status := "pending", paidDate := none, adminNotes := "" }

/-- A storage state holding `partialBill` and the pending overshooting
payment. -/
def overpayState : StorageState :=
  { payments := [billPaymentP], bills := [partialBill], rentStatuses := []
    rates := sampleRates }

/-- A storage state holding only `partialBill`. -/
def c5State : StorageState :=
  { payments := [], bills := [partialBill], rentStatuses := [], rates := sampleRates }

/-- A fresh rent status for a 15000-rent tenant. -/
def rentStatusR : RentStatus :=
  { id := "RENT-0001", tenantId := "alice", month := "2024-03"
    required_amount := 15000, paid_amount := 0, remaining_amount := 15000
    status := "unpaid", payments := [], createdDate := "D0"
    dueDate := "2024-03-01" }

/-- A verified v2 rent payment falling in the 2024-03 period. -/
def rentPaymentV2 : PaymentV2 :=
  { id := "PAY-0001", tenantId := "alice", amount := 15000
    status := "verified", paymentType := "Monthly Rent", dueDate := "2024-03-15" }

/-- A v2 tenant whose lease started 2024-01-15. -/
def tenantAlice : TenantV2 := { id := "alice", leaseStart := some ⟨2024, 1, 15⟩ }

/-- A v2 tenant whose lease started on the 31st of a month. -/
def tenantBob31 : TenantV2 := { id := "bob31", leaseStart := some ⟨2024, 1, 31⟩ }

/-- Rounding is the identity on exact centavo amounts. -/
theorem round2_eq_self {q : ℚ} (h : isCents q) : round2 q = q := by
  obtain ⟨k, rfl⟩ := h
  unfold round2
  have h100 : ((k : ℚ) / 100) * 100 = (k : ℚ) := by
    field_simp
  rw [h100, Int.floor_int_add]
  norm_num

theorem isCents_add {a b : ℚ} (ha : isCents a) (hb : isCents b) : isCents (a + b) := by
  obtain ⟨k, rfl⟩ := ha
  obtain ⟨m, rfl⟩ := hb
  exact ⟨k + m, by push_cast; ring⟩

theorem isCents_neg {a : ℚ} (ha : isCents a) : isCents (-a) := by
  obtain ⟨k, rfl⟩ := ha
  exact ⟨-k, by push_cast; ring⟩

theorem isCents_sub {a b : ℚ} (ha : isCents a) (hb : isCents b) : isCents (a - b) := by
  rw [sub_eq_add_neg]
  exact isCents_add ha (isCents_neg hb)

theorem isCents_zero : isCents 0 := ⟨0, by norm_num⟩

theorem applyRentPayment_required (s : RentStatus) (a : ℚ) (pid : String) :
    (applyRentPayment s a pid).required_amount = s.required_amount := by
  simp only [applyRentPayment]
  split
  · rfl
  · split <;> rfl

/-- On centavo-exact records and amounts, the new `paid_amount` is the exact
sum. -/
theorem applyRentPayment_paid {s : RentStatus} {a : ℚ} (pid : String)
    (hs : isCents s.paid_amount) (ha : isCents a) :
    (applyRentPayment s a pid).paid_amount = s.paid_amount + a := by
  have hr : round2 (s.paid_amount + a) = s.paid_amount + a :=
    round2_eq_self (isCents_add hs ha)
  simp only [applyRentPayment, hr]
  split
  · rfl
  · split <;> rfl

/-- On centavo-exact data, one `updateRentStatus` application leaves
`remaining_amount = max 0 (required - paid)` and the status determined by the
paid/partial/unpaid rule. -/
theorem applyRentPayment_post {s : RentStatus} {a : ℚ} (pid : String)
    (hreq : isCents s.required_amount) (hs : isCents s.paid_amount)
    (ha : isCents a) :
    (applyRentPayment s a pid).remaining_amount =
      max 0 ((applyRentPayment s a pid).required_amount -
        (applyRentPayment s a pid).paid_amount)
    ∧ (applyRentPayment s a pid).status =
        (if (applyRentPayment s a pid).required_amount ≤
            (applyRentPayment s a pid).paid_amount then "paid"
         else if 0 < (applyRentPayment s a pid).paid_amount then "partial"
         else "unpaid") := by
  have hpaid : round2 (s.paid_amount + a) = s.paid_amount + a :=
    round2_eq_self (isCents_add hs ha)
  have hrem : round2 (s.required_amount - (s.paid_amount + a)) =
      s.required_amount - (s.paid_amount + a) :=
    round2_eq_self (isCents_sub hreq (isCents_add hs ha))
  simp only [applyRentPayment, hpaid, hrem]
  by_cases hle : s.required_amount - (s.paid_amount + a) ≤ 0
  · rw [if_pos hle]
    have hle' : s.required_amount ≤ s.paid_amount + a := by linarith
    constructor
    · simp [max_eq_left hle]
    · simp [hle']
  · rw [if_neg hle]
    push_neg at hle
    have hnotle : ¬ s.required_amount ≤ s.paid_amount + a := by linarith
    by_cases hpos : 0 < s.paid_amount + a
    · rw [if_pos hpos]
      constructor
      · simp [max_eq_right (le_of_lt hle)]
      · simp [hnotle, hpos]
    · rw [if_neg hpos]
      constructor
      · simp [max_eq_right (le_of_lt hle)]
      · simp [hnotle, hpos]

theorem applyBillPayment_total (b : Bill) (a : ℚ) (pid : String) :
    (applyBillPayment b a pid).total_amount = b.total_amount := by
  simp only [applyBillPayment]
  split
  · rfl
  · split <;> rfl

/-- After any `updateBillStatus` mutation, `paid_amount ≤ total_amount`. -/
theorem applyBillPayment_le (b : Bill) (a : ℚ) (pid : String) :
    (applyBillPayment b a pid).paid_amount ≤ (applyBillPayment b a pid).total_amount := by
  simp only [applyBillPayment]
  by_cases hc : b.total_amount ≤ round2 (b.paid_amount + a)
  · rw [if_pos hc]
  · rw [if_neg hc]
    push_neg at hc
    split <;> exact le_of_lt hc

/-- When the cap is not crossed, the new `paid_amount` is the exact sum. -/
theorem applyBillPayment_paid_of_le {b : Bill} {a : ℚ} (pid : String)
    (hb : isCents b.paid_amount) (ha : isCents a)
    (hle : b.paid_amount + a ≤ b.total_amount) :
    (applyBillPayment b a pid).paid_amount = b.paid_amount + a := by
  have hr : round2 (b.paid_amount + a) = b.paid_amount + a :=
    round2_eq_self (isCents_add hb ha)
  simp only [applyBillPayment, hr]
  by_cases hc : b.total_amount ≤ b.paid_amount + a
  · rw [if_pos hc]
    exact (le_antisymm hle hc).symm
  · rw [if_neg hc]
    split <;> rfl

/-- A verified-then-rejected round trip on a rent status restores
`paid_amount` exactly. -/
theorem applyRentPayment_roundtrip {s : RentStatus} {a : ℚ} (p₁ p₂ : String)
    (hs : isCents s.paid_amount) (ha : isCents a) :
    (applyRentPayment (applyRentPayment s a p₁) (-a) p₂).paid_amount =
      s.paid_amount := by
  have h1 : (applyRentPayment s a p₁).paid_amount = s.paid_amount + a :=
    applyRentPayment_paid p₁ hs ha
  have h2 : (applyRentPayment (applyRentPayment s a p₁) (-a) p₂).paid_amount =
      (applyRentPayment s a p₁).paid_amount + (-a) :=
    applyRentPayment_paid p₂ (h1 ▸ isCents_add hs ha) (isCents_neg ha)
  rw [h2, h1]
  ring

/-- A verified-then-rejected round trip on a bill restores `paid_amount`
exactly, provided the verification did not overshoot `total_amount`. -/
theorem applyBillPayment_roundtrip {b : Bill} {a : ℚ} (p₁ p₂ : String)
    (hb : isCents b.paid_amount) (ha : isCents a)
    (hble : b.paid_amount ≤ b.total_amount)
    (hcap : b.paid_amount + a ≤ b.total_amount) :
    (applyBillPayment (applyBillPayment b a p₁) (-a) p₂).paid_amount =
      b.paid_amount := by
  have h1 : (applyBillPayment b a p₁).paid_amount = b.paid_amount + a :=
    applyBillPayment_paid_of_le p₁ hb ha hcap
  have h2 : (applyBillPayment (applyBillPayment b a p₁) (-a) p₂).paid_amount =
      (applyBillPayment b a p₁).paid_amount + (-a) := by
    refine applyBillPayment_paid_of_le p₂ (h1 ▸ isCents_add hb ha) (isCents_neg ha) ?_
    rw [h1, applyBillPayment_total]
    linarith
  rw [h2, h1]
  ring

theorem rentFold_required (s : RentStatus) (ps : List (ℚ × String)) :
    (rentFold s ps).required_amount = s.required_amount := by
  induction ps generalizing s with
  | nil => rfl
  | cons p ps ih =>
      simp only [rentFold, List.foldl_cons] at ih ⊢
      rw [ih, applyRentPayment_required]

theorem rentFold_paid {s : RentStatus} {ps : List (ℚ × String)}
    (hs : isCents s.paid_amount) (hall : ∀ p ∈ ps, isCents p.1) :
    (rentFold s ps).paid_amount = s.paid_amount + (ps.map Prod.fst).sum
    ∧ isCents (rentFold s ps).paid_amount := by
  induction ps generalizing s with
  | nil => exact ⟨by simp [rentFold], hs⟩
  | cons p ps ih =>
      have hp : isCents p.1 := hall p (List.mem_cons_self p ps)
      have hs' : isCents (applyRentPayment s p.1 p.2).paid_amount := by
        rw [applyRentPayment_paid p.2 hs hp]
        exact isCents_add hs hp
      have hall' : ∀ q ∈ ps, isCents q.1 := fun q hq => hall q (List.mem_cons_of_mem p hq)
      obtain ⟨h1, h2⟩ := ih hs' hall'
      refine ⟨?_, h2⟩
      simp only [rentFold, List.foldl_cons] at h1 ⊢
      rw [h1, applyRentPayment_paid p.2 hs hp]
      simp [add_assoc]

/-- Replacing, at the index found by a unique key, the first element
satisfying `q` with another element satisfying `q` leaves the first `q`-match
at that element and preserves the `q`-count. -/
theorem set_findIdx_find? {α : Type} (q : α → Bool) (key : α → String)
    (l : List α) (a b : α) (hnd : (l.map key).Nodup)
    (hf : l.find? q = some a) (hqb : q b = true) :
    (l.set (l.findIdx fun x => decide (key x = key a)) b).find? q = some b
    ∧ (l.set (l.findIdx fun x => decide (key x = key a)) b).countP q = l.countP q := by
  induction l with
  | nil => simp at hf
  | cons x xs ih =>
      by_cases hqx : q x = true
      · have hax : x = a := by
          rw [List.find?_cons_of_pos _ hqx] at hf
          exact Option.some.inj hf
        subst hax
        have hkey : (decide (key x = key x)) = true := by simp
        rw [List.findIdx_cons, hkey, cond_true, List.set_cons_zero]
        refine ⟨List.find?_cons_of_pos _ hqb, ?_⟩
        simp [List.countP_cons, hqb, hqx]
      · have hf' : xs.find? q = some a := by
          rwa [List.find?_cons_of_neg _ hqx] at hf
        have hmem : a ∈ xs := List.mem_of_find?_eq_some hf'
        obtain ⟨hx_not, hnd'⟩ := List.nodup_cons.mp hnd
        have hkeyne : key x ≠ key a := by
          intro he
          exact hx_not (he ▸ List.mem_map_of_mem key hmem)
        have hkey : (decide (key x = key a)) = false := by
          simp [hkeyne]
        rw [List.findIdx_cons, hkey, cond_false, List.set_cons_succ]
        obtain ⟨ih1, ih2⟩ := ih hnd' hf'
        refine ⟨?_, ?_⟩
        · rw [List.find?_cons_of_neg _ hqx, ih1]
        · simp [List.countP_cons, hqx, ih2]

/-- Claim C9: an administrative rate update (`updateUtilityRates`) leaves the
stored bill list (hence every field of every existing bill), and the other
stored collections, completely unchanged: bills snapshot the rates in effect
when generated. -/
theorem C9_rate_update_preserves_bills (st : StorageState) (newRates : RatesPatch) :
    (updateUtilityRates st newRates).2.bills = st.bills
    ∧ (updateUtilityRates st newRates).2.payments = st.payments
    ∧ (updateUtilityRates st newRates).2.rentStatuses = st.rentStatuses :=
  ⟨rfl, rfl, rfl⟩

/-- Claim C8: when the referenced bill does not exist, `createBillPayment`
returns no payment and leaves the entire storage state (payments, bills,
rent statuses) untouched. -/
theorem C8_createBillPayment_notFound (st : StorageState)
    (sessionTenant : Option TenantInfo) (billId : String) (amount : ℚ)
    (statusOpt : Option String) (freshId nowDate : String)
    (h : st.bills.find? (fun b => decide (b.id = billId)) = none) :
    createBillPayment st sessionTenant billId amount statusOpt freshId nowDate
      = (none, st) := by
  cases sessionTenant with
  | none => rfl
  | some t => simp [createBillPayment, h]

/-- Witness for C8 at a concrete empty bill list. -/
theorem C8_createBillPayment_notFound_witness :
    (([] : List Bill).find? (fun b => decide (b.id = "BILL-0009")) = none)
    ∧ createBillPayment ⟨[], [], [], sampleRates⟩ (some ⟨"alice", "Alice", "U001", 15000⟩)
        "BILL-0009" 500 none "PAY-0001" "D1" = (none, ⟨[], [], [], sampleRates⟩) :=
  ⟨rfl, C8_createBillPayment_notFound ⟨[], [], [], sampleRates⟩
    (some ⟨"alice", "Alice", "U001", 15000⟩) "BILL-0009" 500 none "PAY-0001" "D1" rfl⟩

/-- Claim C6: `generateBill` computes `electricity_amount`, `water_amount`
and `total_amount` by the round-half-up-to-2-decimals formulas from the rate
snapshot, and on 120 kWh at 11.50 plus 10 cubic meters at 25.00 yields
1380.00, 250.00 and 1630.00. -/
theorem C6_generateBill_amounts (st : StorageState) (tenantId month : String)
    (e w : ℚ) (freshId nowDate : String) :
    ((generateBill st tenantId month e w freshId nowDate).1.electricity_amount
        = round2 (e * st.rates.electricity_rate)
      ∧ (generateBill st tenantId month e w freshId nowDate).1.water_amount
        = round2 (w * st.rates.water_rate)
      ∧ (generateBill st tenantId month e w freshId nowDate).1.total_amount
        = round2 (round2 (e * st.rates.electricity_rate) + round2 (w * st.rates.water_rate)))
    ∧ ((generateBill ⟨[], [], [], sampleRates⟩ "alice" "2024-03" 120 10 "BILL-0001" "D0").1.electricity_amount = 1380
      ∧ (generateBill ⟨[], [], [], sampleRates⟩ "alice" "2024-03" 120 10 "BILL-0001" "D0").1.water_amount = 250
      ∧ (generateBill ⟨[], [], [], sampleRates⟩ "alice" "2024-03" 120 10 "BILL-0001" "D0").1.total_amount = 1630) := by
  constructor
  · refine ⟨?_, ?_, ?_⟩ <;> (simp only [generateBill]; split <;> rfl)
  · refine ⟨?_, ?_, ?_⟩ <;>
      norm_num [generateBill, sampleRates, round2, List.find?]

/-- Counterexample to claim C2 as stated: on a bill whose `total_amount` is
0 (a zero-consumption bill), a positive payment leaves `paid_amount ≤ 0` with
status `paid`, not `unpaid`. -/
theorem C2_counterexample :
    ((updateBillStatus [zeroBill] "BILL-0002" 5 "PAY-0003").2.map Bill.paid_amount = [0])
    ∧ ((updateBillStatus [zeroBill] "BILL-0002" 5 "PAY-0003").2.map Bill.status = ["paid"])
    ∧ ("paid" : String) ≠ "unpaid" := by
  refine ⟨?_, ?_, by decide⟩ <;>
    norm_num [updateBillStatus, applyBillPayment, zeroBill, round2,
      List.find?, List.findIdx, List.findIdx.go]

/-- Claim C2 (amended): after every `updateBillStatus` mutation,
`paid_amount ≤ total_amount`; the increasing side is capped at
`total_amount`; and when `total_amount` is positive, `paid_amount ≤ 0`
forces status `unpaid`. -/
theorem C2_bill_paid_bounded (b : Bill) (delta : ℚ) (pid : String) :
    (applyBillPayment b delta pid).paid_amount ≤ (applyBillPayment b delta pid).total_amount
    ∧ (b.total_amount ≤ round2 (b.paid_amount + delta) →
        (applyBillPayment b delta pid).paid_amount = b.total_amount)
    ∧ (0 < b.total_amount → (applyBillPayment b delta pid).paid_amount ≤ 0 →
        (applyBillPayment b delta pid).status = "unpaid") := by
  refine ⟨applyBillPayment_le b delta pid, ?_, ?_⟩
  · intro hc
    simp only [applyBillPayment]
    rw [if_pos hc]
  · intro htot hle
    simp only [applyBillPayment] at hle ⊢
    by_cases hc : b.total_amount ≤ round2 (b.paid_amount + delta)
    · rw [if_pos hc] at hle
      exact absurd hle (not_le.mpr htot)
    · rw [if_neg hc] at hle ⊢
      by_cases hp : 0 < round2 (b.paid_amount + delta)
      · rw [if_pos hp] at hle
        exact absurd hle (not_le.mpr hp)
      · rw [if_neg hp]

/-- Witness for C2 at concrete bills: a 30-overpayment on `partialBill` is
capped at the total, and a 60-reversal on `partialBill` floors the status at
`unpaid`. -/
theorem C2_bill_paid_bounded_witness :
    ((applyBillPayment partialBill 60 "PAY-0005").paid_amount = partialBill.total_amount)
    ∧ ((applyBillPayment partialBill (-60) "PAY-0006").status = "unpaid") := by
  constructor
  · exact (C2_bill_paid_bounded partialBill 60 "PAY-0005").2.1
      (by norm_num [partialBill, round2])
  · exact (C2_bill_paid_bounded partialBill (-60) "PAY-0006").2.2
      (by norm_num [partialBill])
      (by norm_num [partialBill, applyBillPayment, round2])

/-- Claim C10: `updatePaymentStatus` reverses only from exactly `verified`;
rejecting a payment whose current status is `completed` or `pending` leaves
the stored rent statuses and bills (hence the target entry's amounts, status
and payment history) unchanged. -/
theorem C10_reject_nonverified_frame (st : StorageState) (tenants : List Tenant)
    (freshId nowDate pid notes : String) (p : Payment)
    (hfind : st.payments.find? (fun q => decide (q.id = pid)) = some p)
    (hst : p.status = "completed" ∨ p.status = "pending") :
    (updatePaymentStatus st tenants freshId nowDate pid "rejected" notes).2.bills = st.bills
    ∧ (updatePaymentStatus st tenants freshId nowDate pid "rejected" notes).2.rentStatuses
        = st.rentStatuses := by
  rcases hst with h | h <;> simp [updatePaymentStatus, hfind, h]

/-- Witness for C10: rejecting the pending payment `PAY-0001` in
`overpayState` touches neither the bill list nor the rent-status list. -/
theorem C10_reject_nonverified_frame_witness :
    (updatePaymentStatus overpayState [] "RENT-0001" "D1" "PAY-0001" "rejected" "n").2.bills
      = overpayState.bills
    ∧ (updatePaymentStatus overpayState [] "RENT-0001" "D1" "PAY-0001" "rejected" "n").2.rentStatuses
      = overpayState.rentStatuses :=
  C10_reject_nonverified_frame overpayState [] "RENT-0001" "D1" "PAY-0001" "n"
    billPaymentP rfl (Or.inr rfl)

/-- Counterexample to claim C1 as stated: in `overpayState` the bill has
`total_amount = 100` and `paid_amount = 50`, and the pending payment is for
80.  Verifying the payment caps `paid_amount` at 100; rejecting it then
subtracts the full 80, leaving 20 instead of the pre-verification 50 - the
round trip is not exact once the cap has discarded part of the applied
amount. -/
theorem C1_counterexample :
    (overpayState.bills.map Bill.paid_amount = [50])
    ∧ ((updatePaymentStatus
          (updatePaymentStatus overpayState [] "RENT-0001" "D1" "PAY-0001" "verified" "").2
          [] "RENT-0002" "D2" "PAY-0001" "rejected" "").2.bills.map Bill.paid_amount = [20])
    ∧ (20 : ℚ) ≠ 50 := by
  have step1 : (updatePaymentStatus overpayState [] "RENT-0001" "D1" "PAY-0001" "verified" "").2
      = { payments :=
            [{ id := "PAY-0001", payment_type := "bill", billId := "BILL-0001",
               tenantId := "alice", amount := 80, month := "2025-01", status := "verified",
               paidDate := some "D1", adminNotes := "" }],
          bills :=
            [{ partialBill with
                paid_amount := 100
                status := "paid"
                payments := ["PAY-0000", "PAY-0001"] }],
          rentStatuses := [], rates := sampleRates } := by
    have hbr : ¬ (("bill" : String) = "rent") := by decide
    norm_num [hbr, updatePaymentStatus, updateBillStatus, applyBillPayment, round2,
      overpayState, partialBill, billPaymentP, List.find?, List.findIdx, List.findIdx.go]
  refine ⟨by norm_num [overpayState, partialBill], ?_, by norm_num⟩
  rw [step1]
  have hbr : ¬ (("bill" : String) = "rent") := by decide
  have hrv : ¬ (("rejected" : String) = "verified") := by decide
  have hrc : ¬ (("rejected" : String) = "completed") := by decide
  norm_num [hbr, hrv, hrc, updatePaymentStatus, updateBillStatus, applyBillPayment, round2,
    partialBill, sampleRates, List.find?, List.findIdx, List.findIdx.go]

/-- Claim C1 (amended): an apply/reject round trip restores `paid_amount`
exactly - unconditionally for rent statuses, and for bills provided the
applied amount does not push `paid_amount` past `total_amount` (when it
does, the cap makes the reversal land at `total_amount - amount` instead,
see the counterexample); the restoration persists under arbitrarily many
repeated round trips. -/
theorem C1_reversal_exact (s : RentStatus) (b : Bill) (a : ℚ) (p₁ p₂ : String)
    (hs : isCents s.paid_amount) (ha : isCents a)
    (hb : isCents b.paid_amount) (hble : b.paid_amount ≤ b.total_amount)
    (hcap : b.paid_amount + a ≤ b.total_amount) :
    ((applyRentPayment (applyRentPayment s a p₁) (-a) p₂).paid_amount = s.paid_amount)
    ∧ ((applyBillPayment (applyBillPayment b a p₁) (-a) p₂).paid_amount = b.paid_amount)
    ∧ (∀ n : ℕ,
        ((fun x => applyRentPayment (applyRentPayment x a p₁) (-a) p₂)^[n] s).paid_amount
          = s.paid_amount)
    ∧ (∀ n : ℕ,
        ((fun x => applyBillPayment (applyBillPayment x a p₁) (-a) p₂)^[n] b).paid_amount
          = b.paid_amount) := by
  refine ⟨applyRentPayment_roundtrip p₁ p₂ hs ha,
    applyBillPayment_roundtrip p₁ p₂ hb ha hble hcap, ?_, ?_⟩
  · intro n
    induction n with
    | zero => rfl
    | succ n ih =>
        rw [Function.iterate_succ_apply']
        have hs' : isCents ((fun x => applyRentPayment (applyRentPayment x a p₁) (-a) p₂)^[n] s).paid_amount := by
          rw [ih]; exact hs
        calc ((fun x => applyRentPayment (applyRentPayment x a p₁) (-a) p₂)
                ((fun x => applyRentPayment (applyRentPayment x a p₁) (-a) p₂)^[n] s)).paid_amount
            = ((fun x => applyRentPayment (applyRentPayment x a p₁) (-a) p₂)^[n] s).paid_amount :=
              applyRentPayment_roundtrip p₁ p₂ hs' ha
          _ = s.paid_amount := ih
  · intro n
    induction n with
    | zero => rfl
    | succ n ih =>
        rw [Function.iterate_succ_apply']
        have htot : ((fun x => applyBillPayment (applyBillPayment x a p₁) (-a) p₂)^[n] b).total_amount
            = b.total_amount := by
          clear ih
          induction n with
          | zero => rfl
          | succ m ihm =>
              rw [Function.iterate_succ_apply', applyBillPayment_total, applyBillPayment_total, ihm]
        have hb' : isCents ((fun x => applyBillPayment (applyBillPayment x a p₁) (-a) p₂)^[n] b).paid_amount := by
          rw [ih]; exact hb
        have hble' := ih ▸ htot ▸ hble
        have hcap' := ih ▸ htot ▸ hcap
        calc ((fun x => applyBillPayment (applyBillPayment x a p₁) (-a) p₂)
                ((fun x => applyBillPayment (applyBillPayment x a p₁) (-a) p₂)^[n] b)).paid_amount
            = ((fun x => applyBillPayment (applyBillPayment x a p₁) (-a) p₂)^[n] b).paid_amount :=
              applyBillPayment_roundtrip p₁ p₂ hb' ha hble' hcap'
          _ = b.paid_amount := ih

/-- Witness for C1 at concrete records: a 30 round trip on `rentStatusR` and
on `partialBill` (50 + 30 ≤ 100) restores the paid amounts. -/
theorem C1_reversal_exact_witness :
    ((applyRentPayment (applyRentPayment rentStatusR 30 "PAY-0001") (-30) "PAY-0002").paid_amount
        = rentStatusR.paid_amount)
    ∧ ((applyBillPayment (applyBillPayment partialBill 30 "PAY-0001") (-30) "PAY-0002").paid_amount
        = partialBill.paid_amount) := by
  have h := C1_reversal_exact rentStatusR partialBill 30 "PAY-0001" "PAY-0002"
    ⟨0, by norm_num [rentStatusR]⟩ ⟨3000, by norm_num⟩
    ⟨5000, by norm_num [partialBill]⟩ (by norm_num [partialBill])
    (by norm_num [partialBill])
  exact ⟨h.1, h.2.1⟩

/-- After appending one more payment to a fold of centavo-exact payments, the
resulting record satisfies the remaining/status postcondition. -/
theorem rentFold_step_post (s : RentStatus) (pre : List (ℚ × String)) (a : ℚ)
    (pid : String) (hreq : isCents s.required_amount) (hs : isCents s.paid_amount)
    (hpre : ∀ p ∈ pre, isCents p.1) (ha : isCents a) :
    (rentFold s (pre ++ [(a, pid)])).remaining_amount =
      max 0 ((rentFold s (pre ++ [(a, pid)])).required_amount -
        (rentFold s (pre ++ [(a, pid)])).paid_amount)
    ∧ (rentFold s (pre ++ [(a, pid)])).status =
        (if (rentFold s (pre ++ [(a, pid)])).required_amount ≤
            (rentFold s (pre ++ [(a, pid)])).paid_amount then "paid"
         else if 0 < (rentFold s (pre ++ [(a, pid)])).paid_amount then "partial"
         else "unpaid") := by
  have hfold : rentFold s (pre ++ [(a, pid)]) = applyRentPayment (rentFold s pre) a pid := by
    simp [rentFold, List.foldl_append]
  rw [hfold]
  exact applyRentPayment_post pid (by rw [rentFold_required]; exact hreq)
    (rentFold_paid hs hpre).2 ha

/-- Claim C4: applying a nonempty sequence of verified rent payments whose
centavo-exact amounts sum exactly to the required amount drives the rent
status to `paid` with `remaining_amount = 0`; and after every application in
the sequence, `remaining_amount = max 0 (required_amount - paid_amount)` and
the status follows the paid/partial/unpaid rule. -/
theorem C4_rent_sequence (s : RentStatus) (ps : List (ℚ × String))
    (hreq : isCents s.required_amount) (hpaid0 : s.paid_amount = 0)
    (hall : ∀ p ∈ ps, isCents p.1)
    (hsum : (ps.map Prod.fst).sum = s.required_amount)
    (hne : ps ≠ []) :
    ((rentFold s ps).status = "paid" ∧ (rentFold s ps).remaining_amount = 0)
    ∧ (∀ (pre : List (ℚ × String)) (a : ℚ) (pid : String) (post : List (ℚ × String)),
        ps = pre ++ (a, pid) :: post →
        (rentFold s (pre ++ [(a, pid)])).remaining_amount =
          max 0 ((rentFold s (pre ++ [(a, pid)])).required_amount -
            (rentFold s (pre ++ [(a, pid)])).paid_amount)
        ∧ (rentFold s (pre ++ [(a, pid)])).status =
            (if (rentFold s (pre ++ [(a, pid)])).required_amount ≤
                (rentFold s (pre ++ [(a, pid)])).paid_amount then "paid"
             else if 0 < (rentFold s (pre ++ [(a, pid)])).paid_amount then "partial"
             else "unpaid")) := by
  have hs0 : isCents s.paid_amount := by rw [hpaid0]; exact isCents_zero
  constructor
  · obtain ⟨pre, lp, hps⟩ := (List.eq_nil_or_concat ps).resolve_left hne
    rw [List.concat_eq_append] at hps
    subst hps
    have hpre : ∀ p ∈ pre, isCents p.1 := fun p hp =>
      hall p (List.mem_append_left _ hp)
    have hlp : isCents lp.1 := hall lp (List.mem_append_right _ (List.mem_singleton.mpr rfl))
    have hpost := rentFold_step_post s pre lp.1 lp.2 hreq hs0 hpre hlp
    have hpaidN : (rentFold s (pre ++ [(lp.1, lp.2)])).paid_amount = s.required_amount := by
      have := (rentFold_paid hs0 (fun p hp => hall p hp)).1
      rw [show pre ++ [lp] = pre ++ [(lp.1, lp.2)] from by rw [Prod.mk.eta]] at this hsum
      rw [this, hpaid0, zero_add, ← hsum]
    have hreqN : (rentFold s (pre ++ [(lp.1, lp.2)])).required_amount = s.required_amount :=
      rentFold_required s (pre ++ [(lp.1, lp.2)])
    rw [show pre ++ [lp] = pre ++ [(lp.1, lp.2)] from by rw [Prod.mk.eta]]
    constructor
    · rw [hpost.2, if_pos (by rw [hpaidN, hreqN])]
    · rw [hpost.1, hpaidN, hreqN]
      simp
  · intro pre a pid post heq
    have hpre : ∀ p ∈ pre, isCents p.1 := fun p hp =>
      hall p (heq ▸ List.mem_append_left _ hp)
    have ha : isCents a := hall (a, pid) (heq ▸ List.mem_append_right _ (List.mem_cons_self _ _))
    exact rentFold_step_post s pre a pid hreq hs0 hpre ha

/-- Witness for C4: payments of 10000 then 5000 against the 15000 rent of
`rentStatusR` close the month as `paid` with nothing remaining. -/
theorem C4_rent_sequence_witness :
    (rentFold rentStatusR [(10000, "PAY-0001"), (5000, "PAY-0002")]).status = "paid"
    ∧ (rentFold rentStatusR [(10000, "PAY-0001"), (5000, "PAY-0002")]).remaining_amount = 0 := by
  have h := C4_rent_sequence rentStatusR [(10000, "PAY-0001"), (5000, "PAY-0002")]
    ⟨1500000, by norm_num [rentStatusR]⟩ (by norm_num [rentStatusR])
    (by
      intro p hp
      simp only [List.mem_cons, List.not_mem_nil, or_false] at hp
      rcases hp with rfl | rfl
      · exact ⟨1000000, by norm_num⟩
      · exact ⟨500000, by norm_num⟩)
    (by norm_num [rentStatusR]) (by simp)
  exact h.1

/-- Claim C5: when a bill already exists for `(tenantId, month)` (and bill
ids are unique, as `generateBill`'s id scheme ensures), regenerating the
bill updates consumption, the rate snapshot and the computed amounts in
place, preserves `id`, `paid_amount`, `status`, `createdDate` and
`payments`, keeps the list length, and creates no second bill for the
pair. -/
theorem C5_generateBill_in_place (st : StorageState) (tenantId month : String)
    (e w : ℚ) (freshId nowDate : String) (eb : Bill)
    (hnd : (st.bills.map Bill.id).Nodup)
    (hfind : st.bills.find? (fun b => decide (b.tenantId = tenantId ∧ b.month = month))
      = some eb) :
    ((generateBill st tenantId month e w freshId nowDate).1.id = eb.id
      ∧ (generateBill st tenantId month e w freshId nowDate).1.paid_amount = eb.paid_amount
      ∧ (generateBill st tenantId month e w freshId nowDate).1.status = eb.status
      ∧ (generateBill st tenantId month e w freshId nowDate).1.createdDate = eb.createdDate
      ∧ (generateBill st tenantId month e w freshId nowDate).1.payments = eb.payments)
    ∧ ((generateBill st tenantId month e w freshId nowDate).1.electricity_kwh = e
      ∧ (generateBill st tenantId month e w freshId nowDate).1.water_cubic = w
      ∧ (generateBill st tenantId month e w freshId nowDate).1.electricity_rate
          = st.rates.electricity_rate
      ∧ (generateBill st tenantId month e w freshId nowDate).1.water_rate
          = st.rates.water_rate
      ∧ (generateBill st tenantId month e w freshId nowDate).1.electricity_amount
          = round2 (e * st.rates.electricity_rate)
      ∧ (generateBill st tenantId month e w freshId nowDate).1.water_amount
          = round2 (w * st.rates.water_rate))
    ∧ ((generateBill st tenantId month e w freshId nowDate).2.bills.length
          = st.bills.length
      ∧ (generateBill st tenantId month e w freshId nowDate).2.bills.find?
          (fun b => decide (b.tenantId = tenantId ∧ b.month = month))
          = some (generateBill st tenantId month e w freshId nowDate).1
      ∧ (generateBill st tenantId month e w freshId nowDate).2.bills.countP
          (fun b => decide (b.tenantId = tenantId ∧ b.month = month))
          = st.bills.countP (fun b => decide (b.tenantId = tenantId ∧ b.month = month))) := by
  refine ⟨?_, ?_, ?_, ?_⟩
  · simp only [generateBill, hfind]
    exact ⟨trivial, trivial, trivial, trivial, trivial⟩
  · simp only [generateBill, hfind]
    exact ⟨trivial, trivial, trivial, trivial, trivial, trivial⟩
  · simp only [generateBill, hfind, List.length_set]
  · constructor
    · simp only [generateBill, hfind]
      refine (set_findIdx_find? (fun b => decide (b.tenantId = tenantId ∧ b.month = month))
        Bill.id st.bills eb _ hnd hfind ?_).1
      simp
    · simp only [generateBill, hfind]
      refine (set_findIdx_find? (fun b => decide (b.tenantId = tenantId ∧ b.month = month))
        Bill.id st.bills eb _ hnd hfind ?_).2
      simp

/-- Witness for C5: regenerating `partialBill`'s month with new consumption
figures keeps `paid_amount = 50` and the payment history, and the list stays
a single bill. -/
theorem C5_generateBill_in_place_witness :
    ((generateBill c5State "alice" "2025-01" 120 10 "BILL-9999" "D9").1.paid_amount
        = partialBill.paid_amount)
    ∧ ((generateBill c5State "alice" "2025-01" 120 10 "BILL-9999" "D9").1.payments
        = partialBill.payments)
    ∧ ((generateBill c5State "alice" "2025-01" 120 10 "BILL-9999" "D9").2.bills.length
        = c5State.bills.length) := by
  have h := C5_generateBill_in_place c5State "alice" "2025-01" 120 10 "BILL-9999" "D9"
    partialBill (by simp [c5State, partialBill]) (by simp [c5State, partialBill, List.find?])
  exact ⟨h.1.2.1, h.1.2.2.2.2, h.2.2.1⟩

/-- Claim C3: once a tenant has a verified/completed `Monthly Rent` payment
in the current lease-anchored period, `canMakePayment` refuses another
`Monthly Rent` payment; it still allows `Utility Bills` while that type is
unpaid; and once both types are satisfied in the period, every payment type
is refused. -/
theorem C3_duplicate_check (payments : List PaymentV2) (t : TenantV2)
    (today : SimpleDate) (period : String)
    (hper : getCurrentPaymentPeriod (some t) today = some period)
    (hrent : hasPaidType payments t.id period "Monthly Rent" = true) :
    (canMakePayment payments (some t) today "Monthly Rent").allowed = false
    ∧ (hasPaidType payments t.id period "Utility Bills" = false →
        (canMakePayment payments (some t) today "Utility Bills").allowed = true)
    ∧ (hasPaidType payments t.id period "Utility Bills" = true →
        ∀ ptype : String, (canMakePayment payments (some t) today ptype).allowed = false) := by
  have hne : ¬(("Utility Bills" : String) = "Monthly Rent") := by decide
  refine ⟨?_, ?_, ?_⟩
  · simp [canMakePayment, hper, hrent]
  · intro hbills
    simp [canMakePayment, hper, hrent, hbills, hne]
  · intro hbills ptype
    by_cases hp1 : ptype = "Monthly Rent"
    · subst hp1
      simp [canMakePayment, hper, hrent]
    · by_cases hp2 : ptype = "Utility Bills"
      · subst hp2
        simp [canMakePayment, hper, hrent, hbills, hne]
      · simp [canMakePayment, hper, hrent, hbills, hp1, hp2]

/-- Witness for C3: with alice's verified 2024-03 rent payment on record, a
second rent payment is refused on 2024-03-20 while a utility-bills payment
is allowed. -/
theorem C3_duplicate_check_witness :
    (canMakePayment [rentPaymentV2] (some tenantAlice) ⟨2024, 3, 20⟩ "Monthly Rent").allowed = false
    ∧ (canMakePayment [rentPaymentV2] (some tenantAlice) ⟨2024, 3, 20⟩ "Utility Bills").allowed = true := by
  have h := C3_duplicate_check [rentPaymentV2] tenantAlice ⟨2024, 3, 20⟩ "2024-03"
    (by rfl) (by rfl)
  exact ⟨h.1, h.2.1 (by rfl)⟩

/-- Claim C7 (amended): for a tenant with a lease-start date,
`getCurrentPaymentPeriod` returns the lease-start month advanced by
`(today.year - start.year) * 12 + (today.month - start.month)` months,
formatted `YYYY-MM`, provided the lease-start day-of-month exists in that
target month; the 2024-01-15 / 2024-03-20 scenario resolves to `2024-03`;
and a tenant without a lease-start date gets `none`.  (When the lease-start
day overflows the target month - day 29-31 - the JS `Date` normalisation
rolls the period into the following month, see the counterexample.) -/
theorem C7_current_period (t : TenantV2) (ls today : SimpleDate)
    (hls : t.leaseStart = some ls)
    (hday : ls.day ≤ daysInMonth
      (monthAdvance ls.year ls.month ((today.year - ls.year) * 12 + (today.month - ls.month))).1
      ((monthAdvance ls.year ls.month ((today.year - ls.year) * 12 + (today.month - ls.month))).2 - 1)) :
    (getCurrentPaymentPeriod (some t) today
      = some (formatYM
          (monthAdvance ls.year ls.month ((today.year - ls.year) * 12 + (today.month - ls.month))).1
          (monthAdvance ls.year ls.month ((today.year - ls.year) * 12 + (today.month - ls.month))).2))
    ∧ (∀ t' : TenantV2, t'.leaseStart = none → getCurrentPaymentPeriod (some t') today = none)
    ∧ getCurrentPaymentPeriod (some tenantAlice) ⟨2024, 3, 20⟩ = some "2024-03" := by
  refine ⟨?_, ?_, by rfl⟩
  · simp only [monthAdvance, add_sub_cancel_right] at hday
    simp only [getCurrentPaymentPeriod, hls, monthAdvance]
    rw [if_pos hday]
  · intro t' h
    simp [getCurrentPaymentPeriod, h]

/-- Counterexample to claim C7 as stated: a lease starting 2024-01-31 seen
on 2024-02-20 yields period `2024-03` (the day 31 overflows February and
`setMonth` rolls into March), not the `2024-02` the month-advance formula
claims. -/
theorem C7_counterexample :
    getCurrentPaymentPeriod (some tenantBob31) ⟨2024, 2, 20⟩ = some "2024-03"
    ∧ formatYM (monthAdvance 2024 1 ((2024 - 2024) * 12 + (2 - 1))).1
        (monthAdvance 2024 1 ((2024 - 2024) * 12 + (2 - 1))).2 = "2024-02"
    ∧ ("2024-03" : String) ≠ "2024-02" :=
  ⟨rfl, rfl, by decide⟩

/-- Witness for C7 at the spec scenario: lease start 2024-01-15, today
2024-03-20. -/
theorem C7_current_period_witness :
    getCurrentPaymentPeriod (some tenantAlice) ⟨2024, 3, 20⟩
      = some (formatYM
          (monthAdvance 2024 1 ((2024 - 2024) * 12 + (3 - 1))).1
          (monthAdvance 2024 1 ((2024 - 2024) * 12 + (3 - 1))).2) := by
  have h := C7_current_period tenantAlice ⟨2024, 1, 15⟩ ⟨2024, 3, 20⟩ rfl (by decide)
  exact h.1
